import Mathlib

/-!
A shallow embedding of the `bnd` command-line front end
(`src/beneuro_data/cli.py`) and of the transfer copy policy described in the
design document.

Paths are lists of components.  The filesystem is an abstract record of the
queries the CLI performs (`is_dir`, `exists`, `iterdir`) together with the
`absolute` path resolution.  The functions imported from the missing modules
(`validate_raw_session`, `upload_raw_session`, `rename_raw_videos_of_session`)
are oracles: arbitrary functions that either succeed or raise a Python
exception.  Each command is embedded as a function returning the list of
observable effects it performed (filesystem queries, calls into the data
layer, printed report lines) together with its outcome: a normal return value
or a raised exception.
-/

abbrev FsPath := List String

/-- Last path component, as Python's `Path.name`. -/
def pathName (p : FsPath) : String := (List.getLast? p).getD ""

/-- Python exceptions that can cross the boundaries modelled here, carrying
their `args` tuple (modelled as a list of strings). -/
inductive PyExc where
  | notImplementedError : List String → PyExc
  | valueError : List String → PyExc
  | indexError : List String → PyExc
  | fileNotFoundError : List String → PyExc
  | otherExc : String → List String → PyExc
deriving DecidableEq, Repr

/-- The `args` tuple of a Python exception. -/
def PyExc.args : PyExc → List String
  | notImplementedError a => a
  | valueError a => a
  | indexError a => a
  | fileNotFoundError a => a
  | otherExc _ a => a

/-- Observable effects of a CLI command: filesystem queries, calls into the
data-handling layer, and printed report lines. -/
inductive Effect where
  | queryIsDir : FsPath → Effect
  | queryExists : FsPath → Effect
  | queryIterdir : FsPath → Effect
  | callValidateRawSession : FsPath → String → Bool → Bool → Bool → Effect
  | callUploadRawSession : FsPath → String → FsPath → FsPath → Bool → Bool → Bool → Effect
  | callRenameRawVideos : FsPath → String → Bool → Effect
  | printLine : String → Effect
deriving DecidableEq, Repr

/-- Abstract filesystem state as seen through the queries the CLI performs.
`iterdir` may raise (e.g. `FileNotFoundError` when the directory is absent),
as `Path.iterdir` does in Python. -/
structure FS where
  isDir : FsPath → Bool
  pathExists : FsPath → Bool
  iterdir : FsPath → Except PyExc (List FsPath)
  absolute : FsPath → FsPath

/-- Oracle for `beneuro_data.data_validation.validate_raw_session`
(session path, subject name, check behavior / ephys / videos). -/
abbrev RawValidator := FsPath → String → Bool → Bool → Bool → Except PyExc Unit

/-- Oracle for `beneuro_data.data_transfer.upload_raw_session`
(local session path, subject name, local root, remote root, include flags). -/
abbrev RawUploader := FsPath → String → FsPath → FsPath → Bool → Bool → Bool → Except PyExc Unit

/-- Oracle for `beneuro_data.video_renaming.rename_raw_videos_of_session`. -/
abbrev Renamer := FsPath → String → Bool → Except PyExc Unit

/-- The process-wide configuration object (`beneuro_data.config.config`). -/
structure Config where
  LOCAL_PATH : FsPath
  REMOTE_PATH : FsPath

def notImplementedMsg : PyExc :=
  PyExc.notImplementedError ["Sorry, only raw data is supported for now."]

def atLeastOneMsg : PyExc :=
  PyExc.valueError ["At least one data type must be checked."]

def mustBeDirMsg : PyExc :=
  PyExc.valueError ["Session path must be a directory."]

def doesNotExistMsg : PyExc :=
  PyExc.valueError ["Session path does not exist."]

/-- Embedding of the `validate_session` command. -/
def validate_session (fs : FS) (oracle : RawValidator)
    (session_path : FsPath) (subject_name : String) (processing_level : String)
    (check_behavior check_ephys check_videos : Bool) :
    List Effect × Except PyExc Unit :=
  if processing_level ≠ "raw" then
    ([], Except.error notImplementedMsg)
  else if !check_behavior && !check_ephys && !check_videos then
    ([], Except.error atLeastOneMsg)
  else if !(fs.isDir (fs.absolute session_path)) then
    ([Effect.queryIsDir (fs.absolute session_path)], Except.error mustBeDirMsg)
  else if !(fs.pathExists (fs.absolute session_path)) then
    ([Effect.queryIsDir (fs.absolute session_path),
      Effect.queryExists (fs.absolute session_path)],
     Except.error doesNotExistMsg)
  else
    ([Effect.queryIsDir (fs.absolute session_path),
      Effect.queryExists (fs.absolute session_path),
      Effect.callValidateRawSession (fs.absolute session_path) subject_name
        check_behavior check_ephys check_videos],
     match oracle (fs.absolute session_path) subject_name
         check_behavior check_ephys check_videos with
     | Except.ok _ => Except.ok ()
     | Except.error e => Except.error e)

/-- Embedding of the `rename_videos` command. -/
def rename_videos (fs : FS) (renamer : Renamer)
    (session_path : FsPath) (subject_name : String) (processing_level : String)
    (verbose : Bool) :
    List Effect × Except PyExc Unit :=
  if processing_level ≠ "raw" then
    ([], Except.error notImplementedMsg)
  else if !(fs.isDir (fs.absolute session_path)) then
    ([Effect.queryIsDir (fs.absolute session_path)], Except.error mustBeDirMsg)
  else if !(fs.pathExists (fs.absolute session_path)) then
    ([Effect.queryIsDir (fs.absolute session_path),
      Effect.queryExists (fs.absolute session_path)],
     Except.error doesNotExistMsg)
  else
    ([Effect.queryIsDir (fs.absolute session_path),
      Effect.queryExists (fs.absolute session_path),
      Effect.callRenameRawVideos (fs.absolute session_path) subject_name verbose],
     match renamer (fs.absolute session_path) subject_name verbose with
     | Except.ok _ => Except.ok ()
     | Except.error e => Except.error e)

/-- Embedding of the `upload_session` command (returns `True` on success). -/
def upload_session (fs : FS) (uploader : RawUploader) (cfg : Config)
    (local_session_path : FsPath) (subject_name : String) (processing_level : String)
    (include_behavior include_ephys include_videos : Bool) :
    List Effect × Except PyExc Bool :=
  if processing_level ≠ "raw" then
    ([], Except.error notImplementedMsg)
  else if !include_behavior && !include_ephys && !include_videos then
    ([], Except.error atLeastOneMsg)
  else
    ([Effect.callUploadRawSession (fs.absolute local_session_path) subject_name
        cfg.LOCAL_PATH cfg.REMOTE_PATH include_behavior include_ephys include_videos],
     match uploader (fs.absolute local_session_path) subject_name
         cfg.LOCAL_PATH cfg.REMOTE_PATH
         include_behavior include_ephys include_videos with
     | Except.ok _ => Except.ok true
     | Except.error e => Except.error e)

/-- Report line printed when a session validates (`rich` markup included). -/
def goodMsg (p : FsPath) : String :=
  "[bold green]" ++ pathName p ++ " looking good.\n"

/-- Report line printed when validating a session raised an exception whose
first argument is `msg`. -/
def badMsg (p : FsPath) (msg : String) : String :=
  "[bold red]Problem with " ++ pathName p ++ ": " ++ msg ++ "\n"

/-- The `for session_path in subject_path.iterdir()` loop of
`validate_sessions`.  Accessing `e.args[0]` on an exception whose `args`
tuple is empty raises `IndexError`, which propagates and aborts the loop. -/
def sessionsLoop (fs : FS) (oracle : RawValidator) (subject_name : String)
    (check_behavior check_ephys check_videos : Bool) :
    List FsPath → List Effect × Except PyExc Unit
  | [] => ([], Except.ok ())
  | p :: rest =>
    if fs.isDir p then
      match oracle p subject_name check_behavior check_ephys check_videos with
      | Except.ok _ =>
        let r := sessionsLoop fs oracle subject_name
          check_behavior check_ephys check_videos rest
        (Effect.callValidateRawSession p subject_name
            check_behavior check_ephys check_videos ::
          Effect.printLine (goodMsg p) :: r.1, r.2)
      | Except.error e =>
        match (PyExc.args e).head? with
        | some msg =>
          let r := sessionsLoop fs oracle subject_name
            check_behavior check_ephys check_videos rest
          (Effect.callValidateRawSession p subject_name
              check_behavior check_ephys check_videos ::
            Effect.printLine (badMsg p msg) :: r.1, r.2)
        | none =>
          ([Effect.callValidateRawSession p subject_name
              check_behavior check_ephys check_videos],
           Except.error (PyExc.indexError ["tuple index out of range"]))
    else
      sessionsLoop fs oracle subject_name
        check_behavior check_ephys check_videos rest

/-- Embedding of the `validate_sessions` command. -/
def validate_sessions (fs : FS) (oracle : RawValidator) (cfg : Config)
    (subject_name : String) (processing_level : String)
    (check_behavior check_ephys check_videos : Bool) :
    List Effect × Except PyExc Unit :=
  if processing_level ≠ "raw" then
    ([], Except.error notImplementedMsg)
  else if !check_behavior && !check_ephys && !check_videos then
    ([], Except.error atLeastOneMsg)
  else
    let subject_path := cfg.LOCAL_PATH ++ [processing_level, subject_name]
    match fs.iterdir subject_path with
    | Except.error e => ([Effect.queryIterdir subject_path], Except.error e)
    | Except.ok entries =>
      let r := sessionsLoop fs oracle subject_name
        check_behavior check_ephys check_videos entries
      (Effect.queryIterdir subject_path :: r.1, r.2)

/-- For each directory entry under the subject path, the loop emits a call to
the validator and one report line (green on success, red with the exception's
first argument on failure); non-directory entries contribute nothing.  This
is the report the loop produces when it is never aborted. -/
def batchReport (fs : FS) (oracle : RawValidator) (subject_name : String)
    (check_behavior check_ephys check_videos : Bool) :
    List FsPath → List Effect
  | [] => []
  | p :: rest =>
    if fs.isDir p then
      Effect.callValidateRawSession p subject_name
          check_behavior check_ephys check_videos ::
      Effect.printLine
        (match oracle p subject_name check_behavior check_ephys check_videos with
         | Except.ok _ => goodMsg p
         | Except.error e => badMsg p ((PyExc.args e).headD "")) ::
      batchReport fs oracle subject_name check_behavior check_ephys check_videos rest
    else
      batchReport fs oracle subject_name check_behavior check_ephys check_videos rest

/-- Every exception the validator raises on a directory entry of the batch
carries at least one argument (so that `e.args[0]` cannot itself raise). -/
def ArgsNonempty (fs : FS) (oracle : RawValidator) (subject_name : String)
    (check_behavior check_ephys check_videos : Bool) (entries : List FsPath) : Prop :=
  ∀ p ∈ entries, fs.isDir p = true →
    ∀ e, oracle p subject_name check_behavior check_ephys check_videos =
        Except.error e → PyExc.args e ≠ []

/-- File contents, as byte sequences. -/
abbrev Content := List Nat

/-- The remote mirror: which content, if any, sits at each remote path. -/
abbrev RemoteState := FsPath → Option Content

/-- A transfer conflict: the destination path, the content already present
remotely, and the differing local source content. -/
structure TransferConflict where
  dest : FsPath
  remoteContent : Content
  localContent : Content
deriving DecidableEq, Repr

/-- Modelled from the spec: `beneuro_data.data_transfer.upload_raw_session`
is not under `src/`; this follows §4.4 of the design document.  The files of
the selected modalities, already enumerated as pairs of a
`processing_level/subject/session`-relative destination path and the local
source content, are copied one by one under `remote_root`: a file whose
destination does not exist is copied; one whose destination holds equal
content is skipped; one whose destination holds different content is a
conflict, which aborts the transfer and is surfaced as an error. -/
def upload_raw_session_model (remote_root : FsPath) :
    List (FsPath × Content) → RemoteState → RemoteState × Option TransferConflict
  | [], remote => (remote, none)
  | (rel, c) :: rest, remote =>
    let dest := remote_root ++ rel
    match remote dest with
    | none =>
      upload_raw_session_model remote_root rest
        (fun q => if q = dest then some c else remote q)
    | some rc =>
      if rc = c then
        upload_raw_session_model remote_root rest remote
      else
        (remote, some ⟨dest, rc, c⟩)

/-! Concrete states used to exercise the theorems on explicit inputs. -/

/-- A filesystem with no directories and no files. -/
def emptyFS : FS where
  isDir := fun _ => false
  pathExists := fun _ => false
  iterdir := fun _ => Except.error (PyExc.fileNotFoundError ["No such file or directory"])
  absolute := id

def okValidator : RawValidator := fun _ _ _ _ _ => Except.ok ()

def okUploader : RawUploader := fun _ _ _ _ _ _ _ => Except.ok ()

def okRenamer : Renamer := fun _ _ _ => Except.ok ()

def sampleCfg : Config := ⟨["local"], ["remote"]⟩

def cexCfg : Config := ⟨["root"], ["backup"]⟩

/-- Subject `M1` has two session directories, `s1` and `s2`. -/
def cexFS : FS where
  isDir := fun p => p == ["root", "raw", "M1", "s1"] || p == ["root", "raw", "M1", "s2"]
  pathExists := fun p => p == ["root", "raw", "M1", "s1"] || p == ["root", "raw", "M1", "s2"]
  iterdir := fun p =>
    if p == ["root", "raw", "M1"] then
      Except.ok [["root", "raw", "M1", "s1"], ["root", "raw", "M1", "s2"]]
    else
      Except.error (PyExc.fileNotFoundError ["No such file or directory"])
  absolute := id

/-- Raises an exception with an empty `args` tuple on session `s1`. -/
def arglessValidator : RawValidator := fun p _ _ _ _ =>
  if p == ["root", "raw", "M1", "s1"] then
    Except.error (PyExc.otherExc "RuntimeError" [])
  else
    Except.ok ()

def cexCfg7 : Config := ⟨["home"], ["backup"]⟩

/-- Subject `M2` has two session directories, `t1` and `t2`. -/
def cexFS7 : FS where
  isDir := fun p => p == ["home", "raw", "M2", "t1"] || p == ["home", "raw", "M2", "t2"]
  pathExists := fun p => p == ["home", "raw", "M2", "t1"] || p == ["home", "raw", "M2", "t2"]
  iterdir := fun p =>
    if p == ["home", "raw", "M2"] then
      Except.ok [["home", "raw", "M2", "t1"], ["home", "raw", "M2", "t2"]]
    else
      Except.error (PyExc.fileNotFoundError ["No such file or directory"])
  absolute := id

/-- Raises an exception with an empty `args` tuple on session `t1`. -/
def arglessValidator7 : RawValidator := fun p _ _ _ _ =>
  if p == ["home", "raw", "M2", "t1"] then
    Except.error (PyExc.valueError [])
  else
    Except.ok ()

/-- Raises an exception carrying a message on session `s1`, succeeds on the
others. -/
def msgValidator : RawValidator := fun p _ _ _ _ =>
  if p == ["root", "raw", "M1", "s1"] then
    Except.error (PyExc.valueError ["bad session"])
  else
    Except.ok ()

/-- A remote mirror that already holds content `[9]` at `r/b`. -/
def cexRemote : RemoteState := fun q =>
  if q = ["r", "b"] then some [9] else none

/-! Shared lemmas about the batch loop. -/

theorem sessionsLoop_eq_batchReport (fs : FS) (oracle : RawValidator)
    (sn : String) (cb ce cv : Bool) (entries : List FsPath)
    (h : ArgsNonempty fs oracle sn cb ce cv entries) :
    sessionsLoop fs oracle sn cb ce cv entries =
      (batchReport fs oracle sn cb ce cv entries, Except.ok ()) := by
  induction entries with
  | nil => rfl
  | cons p rest ih =>
    have hrest : ArgsNonempty fs oracle sn cb ce cv rest := by
      intro q hq hdq e he
      exact h q (List.mem_cons_of_mem _ hq) hdq e he
    by_cases hd : fs.isDir p
    · cases horacle : oracle p sn cb ce cv with
      | ok u =>
        simp [sessionsLoop, batchReport, hd, horacle, ih hrest]
      | error e =>
        have hargs : PyExc.args e ≠ [] :=
          h p (List.mem_cons_self _ _) hd e horacle
        cases hhead : (PyExc.args e).head? with
        | none =>
          exact absurd (List.head?_eq_none_iff.mp hhead) hargs
        | some msg =>
          have hD : (PyExc.args e).headD "" = msg := by
            rw [List.headD_eq_head?_getD, hhead]
            rfl
          simp [sessionsLoop, batchReport, hd, horacle, hhead, hD, ih hrest]
    · simp [sessionsLoop, batchReport, hd, ih hrest]

theorem batchReport_call_mem (fs : FS) (oracle : RawValidator)
    (sn : String) (cb ce cv : Bool) (entries : List FsPath)
    (p : FsPath) (hp : p ∈ entries) (hd : fs.isDir p = true) :
    Effect.callValidateRawSession p sn cb ce cv ∈
      batchReport fs oracle sn cb ce cv entries := by
  induction entries with
  | nil => cases hp
  | cons q rest ih =>
    rcases List.mem_cons.mp hp with hpq | hpr
    · subst hpq
      simp [batchReport, hd]
    · by_cases hdq : fs.isDir q <;>
        cases horacle : oracle q sn cb ce cv <;>
        simp [batchReport, hdq, horacle, ih hpr]

theorem batchReport_call_characterize (fs : FS) (oracle : RawValidator)
    (sn : String) (cb ce cv : Bool) (entries : List FsPath)
    (p : FsPath) (s : String) (b1 b2 b3 : Bool)
    (hmem : Effect.callValidateRawSession p s b1 b2 b3 ∈
      batchReport fs oracle sn cb ce cv entries) :
    p ∈ entries ∧ fs.isDir p = true ∧ s = sn ∧ b1 = cb ∧ b2 = ce ∧ b3 = cv := by
  induction entries with
  | nil => cases hmem
  | cons q rest ih =>
    by_cases hdq : fs.isDir q
    · rw [batchReport, if_pos hdq] at hmem
      rcases List.mem_cons.mp hmem with heq | hmem2
      · injection heq with h1 h2 h3 h4 h5
        subst h1; subst h2; subst h3; subst h4; subst h5
        exact ⟨List.mem_cons_self _ _, hdq, rfl, rfl, rfl, rfl⟩
      · rcases List.mem_cons.mp hmem2 with heq | hmem3
        · cases oracle q sn cb ce cv <;> cases heq
        · obtain ⟨h1, h2⟩ := ih hmem3
          exact ⟨List.mem_cons_of_mem _ h1, h2⟩
    · rw [batchReport, if_neg hdq] at hmem
      obtain ⟨h1, h2⟩ := ih hmem
      exact ⟨List.mem_cons_of_mem _ h1, h2⟩

theorem batchReport_report_mem (fs : FS) (oracle : RawValidator)
    (sn : String) (cb ce cv : Bool) (entries : List FsPath)
    (p : FsPath) (hp : p ∈ entries) (hd : fs.isDir p = true) :
    Effect.printLine
        (match oracle p sn cb ce cv with
         | Except.ok _ => goodMsg p
         | Except.error e => badMsg p ((PyExc.args e).headD "")) ∈
      batchReport fs oracle sn cb ce cv entries := by
  induction entries with
  | nil => cases hp
  | cons q rest ih =>
    rcases List.mem_cons.mp hp with hpq | hpr
    · subst hpq
      rw [batchReport, if_pos hd]
      exact List.mem_cons_of_mem _ (List.mem_cons_self _ _)
    · by_cases hdq : fs.isDir q
      · rw [batchReport, if_pos hdq]
        exact List.mem_cons_of_mem _ (List.mem_cons_of_mem _ (ih hpr))
      · rw [batchReport, if_neg hdq]
        exact ih hpr

theorem batchReport_printLine_characterize (fs : FS) (oracle : RawValidator)
    (sn : String) (cb ce cv : Bool) (entries : List FsPath)
    (s : String)
    (hmem : Effect.printLine s ∈ batchReport fs oracle sn cb ce cv entries) :
    ∃ p, p ∈ entries ∧ fs.isDir p = true ∧
      (s = goodMsg p ∨ ∃ m, s = badMsg p m) := by
  induction entries with
  | nil => cases hmem
  | cons q rest ih =>
    by_cases hdq : fs.isDir q
    · rw [batchReport, if_pos hdq] at hmem
      rcases List.mem_cons.mp hmem with heq | hmem2
      · cases heq
      · rcases List.mem_cons.mp hmem2 with heq | hmem3
        · injection heq with h1
          refine ⟨q, List.mem_cons_self _ _, hdq, ?_⟩
          cases horacle : oracle q sn cb ce cv with
          | ok u => rw [horacle] at h1; exact Or.inl h1
          | error e => rw [horacle] at h1; exact Or.inr ⟨_, h1⟩
        · obtain ⟨p, h1, h2⟩ := ih hmem3
          exact ⟨p, List.mem_cons_of_mem _ h1, h2⟩
    · rw [batchReport, if_neg hdq] at hmem
      obtain ⟨p, h1, h2⟩ := ih hmem
      exact ⟨p, List.mem_cons_of_mem _ h1, h2⟩

theorem validate_sessions_raw_unfold (fs : FS) (oracle : RawValidator)
    (cfg : Config) (sn : String) (cb ce cv : Bool) (entries : List FsPath)
    (hflag : cb = true ∨ ce = true ∨ cv = true)
    (hiter : fs.iterdir (cfg.LOCAL_PATH ++ ["raw", sn]) = Except.ok entries) :
    validate_sessions fs oracle cfg sn "raw" cb ce cv =
      (Effect.queryIterdir (cfg.LOCAL_PATH ++ ["raw", sn]) ::
        (sessionsLoop fs oracle sn cb ce cv entries).1,
       (sessionsLoop fs oracle sn cb ce cv entries).2) := by
  have hguard : (!cb && !ce && !cv) = false := by
    rcases hflag with h | h | h <;> subst h <;> simp
  simp [validate_sessions, hguard, hiter]

/-- Claim C1: every command (`validate_session`, `validate_sessions`,
`upload_session`, `rename_videos`) invoked with a processing level other than
`"raw"` raises `NotImplementedError` with no effect performed: no filesystem
query, no call into the validation, upload or renaming layer. -/
theorem nonraw_level_notImplemented
    (fs : FS) (oracle : RawValidator) (uploader : RawUploader) (renamer : Renamer)
    (cfg : Config) (sp : FsPath) (sn pl : String) (b e v verbose : Bool)
    (hpl : pl ≠ "raw") :
    validate_session fs oracle sp sn pl b e v = ([], Except.error notImplementedMsg) ∧
    upload_session fs uploader cfg sp sn pl b e v = ([], Except.error notImplementedMsg) ∧
    validate_sessions fs oracle cfg sn pl b e v = ([], Except.error notImplementedMsg) ∧
    rename_videos fs renamer sp sn pl verbose = ([], Except.error notImplementedMsg) := by
  refine ⟨?_, ?_, ?_, ?_⟩ <;>
    simp [validate_session, upload_session, validate_sessions, rename_videos, hpl]

theorem nonraw_level_notImplemented_witness :
    ("processed" : String) ≠ "raw" ∧
    (validate_session emptyFS okValidator ["s"] "M1" "processed" true true true =
      ([], Except.error notImplementedMsg) ∧
    upload_session emptyFS okUploader sampleCfg ["s"] "M1" "processed" true true true =
      ([], Except.error notImplementedMsg) ∧
    validate_sessions emptyFS okValidator sampleCfg "M1" "processed" true true true =
      ([], Except.error notImplementedMsg) ∧
    rename_videos emptyFS okRenamer ["s"] "M1" "processed" false =
      ([], Except.error notImplementedMsg)) :=
  ⟨by decide,
   nonraw_level_notImplemented emptyFS okValidator okUploader okRenamer sampleCfg
     ["s"] "M1" "processed" true true true false (by decide)⟩

/-- Claim C2: with processing level `"raw"` and all three modality flags
false, `validate_session`, `upload_session` and `validate_sessions` raise
`ValueError` with no effect performed, so `validate_raw_session` and
`upload_raw_session` are never invoked and an empty selection is never a
no-op success. -/
theorem empty_selection_valueError
    (fs : FS) (oracle : RawValidator) (uploader : RawUploader) (cfg : Config)
    (sp : FsPath) (sn : String) :
    validate_session fs oracle sp sn "raw" false false false =
      ([], Except.error atLeastOneMsg) ∧
    upload_session fs uploader cfg sp sn "raw" false false false =
      ([], Except.error atLeastOneMsg) ∧
    validate_sessions fs oracle cfg sn "raw" false false false =
      ([], Except.error atLeastOneMsg) := by
  refine ⟨?_, ?_, ?_⟩ <;>
    simp [validate_session, upload_session, validate_sessions]

/-- Claim C5: with processing level `"raw"`, whenever the (absolutized)
session path is not a directory or does not exist, `validate_session` raises
a `ValueError` and its effect trace contains no call to
`validate_raw_session`: the validation operation never starts. -/
theorem validate_session_bad_path_valueError
    (fs : FS) (oracle : RawValidator) (sp : FsPath) (sn : String) (cb ce cv : Bool)
    (h : fs.isDir (fs.absolute sp) = false ∨ fs.pathExists (fs.absolute sp) = false) :
    (∃ args, (validate_session fs oracle sp sn "raw" cb ce cv).2 =
        Except.error (PyExc.valueError args)) ∧
    ∀ p s b1 b2 b3, Effect.callValidateRawSession p s b1 b2 b3 ∉
        (validate_session fs oracle sp sn "raw" cb ce cv).1 := by
  by_cases hsel : (!cb && !ce && !cv) = true
  · refine ⟨⟨["At least one data type must be checked."], ?_⟩, ?_⟩
    · simp [validate_session, hsel, atLeastOneMsg]
    · intro p s b1 b2 b3
      simp [validate_session, hsel]
  · by_cases hdir : fs.isDir (fs.absolute sp) = true
    · have hex : fs.pathExists (fs.absolute sp) = false := by
        rcases h with hd | he
        · rw [hdir] at hd; cases hd
        · exact he
      refine ⟨⟨["Session path does not exist."], ?_⟩, ?_⟩
      · simp [validate_session, hsel, hdir, hex, doesNotExistMsg]
      · intro p s b1 b2 b3
        simp [validate_session, hsel, hdir, hex]
    · have hdir2 : fs.isDir (fs.absolute sp) = false := by
        cases hval : fs.isDir (fs.absolute sp)
        · rfl
        · exact absurd hval hdir
      refine ⟨⟨["Session path must be a directory."], ?_⟩, ?_⟩
      · simp [validate_session, hsel, hdir2, mustBeDirMsg]
      · intro p s b1 b2 b3
        simp [validate_session, hsel, hdir2]

theorem validate_session_bad_path_valueError_witness :
    (emptyFS.isDir (emptyFS.absolute ["s"]) = false ∨
      emptyFS.pathExists (emptyFS.absolute ["s"]) = false) ∧
    (∃ args, (validate_session emptyFS okValidator ["s"] "M1" "raw" true true true).2 =
        Except.error (PyExc.valueError args)) ∧
    Effect.callValidateRawSession ["s"] "M1" true true true ∉
      (validate_session emptyFS okValidator ["s"] "M1" "raw" true true true).1 := by
  have h := validate_session_bad_path_valueError emptyFS okValidator ["s"] "M1"
    true true true (Or.inl rfl)
  exact ⟨Or.inl rfl, h.1, h.2 ["s"] "M1" true true true⟩

/-- Claim C6: with processing level `"raw"` and at least one include flag
true, `upload_session`'s whole effect trace is the single call to
`upload_raw_session` on the absolutized session path: it never calls
`validate_raw_session` and performs no filesystem query; moreover its result
does not depend on the filesystem's `is_dir` / `exists` / `iterdir` state at
all. -/
theorem upload_session_no_revalidation
    (fs : FS) (uploader : RawUploader) (cfg : Config) (sp : FsPath) (sn : String)
    (ib ie iv : Bool) (hflag : ib = true ∨ ie = true ∨ iv = true) :
    (upload_session fs uploader cfg sp sn "raw" ib ie iv).1 =
      [Effect.callUploadRawSession (fs.absolute sp) sn
        cfg.LOCAL_PATH cfg.REMOTE_PATH ib ie iv] ∧
    ∀ d x i, upload_session ⟨d, x, i, fs.absolute⟩ uploader cfg sp sn "raw" ib ie iv =
      upload_session fs uploader cfg sp sn "raw" ib ie iv := by
  have hguard : (!ib && !ie && !iv) = false := by
    rcases hflag with h | h | h <;> subst h <;> simp
  constructor
  · simp [upload_session, hguard]
  · intro d x i
    simp [upload_session, hguard]

theorem upload_session_no_revalidation_witness :
    (true = true ∨ true = true ∨ true = true) ∧
    (upload_session emptyFS okUploader sampleCfg ["x"] "M1" "raw" true true true).1 =
      [Effect.callUploadRawSession ["x"] "M1" ["local"] ["remote"] true true true] ∧
    upload_session ⟨fun _ => true, fun _ => true, fun _ => Except.ok [], id⟩
        okUploader sampleCfg ["x"] "M1" "raw" true true true =
      upload_session emptyFS okUploader sampleCfg ["x"] "M1" "raw" true true true := by
  have h := upload_session_no_revalidation emptyFS okUploader sampleCfg ["x"] "M1"
    true true true (Or.inl rfl)
  exact ⟨Or.inl rfl, h.1, h.2 _ _ _⟩

/-- Claim C8: every `upload_raw_session` call that `upload_session` performs
passes exactly `config.LOCAL_PATH` and `config.REMOTE_PATH` as the local and
remote roots, for every session path, subject name, processing level and flag
combination: the roots are never re-derived. -/
theorem upload_roots_from_config
    (fs : FS) (uploader : RawUploader) (cfg : Config) (sp : FsPath)
    (sn pl : String) (ib ie iv : Bool) :
    ∀ p s lr rr b1 b2 b3,
      Effect.callUploadRawSession p s lr rr b1 b2 b3 ∈
        (upload_session fs uploader cfg sp sn pl ib ie iv).1 →
      lr = cfg.LOCAL_PATH ∧ rr = cfg.REMOTE_PATH := by
  intro p s lr rr b1 b2 b3 hmem
  by_cases hpl : pl = "raw"
  · subst hpl
    by_cases hsel : (!ib && !ie && !iv) = true
    · simp [upload_session, hsel] at hmem
    · simp [upload_session, hsel] at hmem
      exact ⟨hmem.2.2.1, hmem.2.2.2.1⟩
  · simp [upload_session, hpl] at hmem

theorem upload_roots_from_config_witness :
    Effect.callUploadRawSession ["x"] "M1" ["local"] ["remote"] true true true ∈
      (upload_session emptyFS okUploader sampleCfg ["x"] "M1" "raw" true true true).1 ∧
    (["local"] = sampleCfg.LOCAL_PATH ∧ ["remote"] = sampleCfg.REMOTE_PATH) :=
  ⟨by decide,
   upload_roots_from_config emptyFS okUploader sampleCfg ["x"] "M1" "raw"
     true true true ["x"] "M1" ["local"] ["remote"] true true true (by decide)⟩

/-- Claim C10: on a filesystem where every directory exists (so a
non-existent path is never a directory), any non-existent session path makes
`validate_session` (with raw level and a non-empty selection) and
`rename_videos` raise `ValueError ["Session path must be a directory."]`; the
trace shows the existence check never even runs, so the branch raising
`"Session path does not exist."` is unreachable. -/
theorem nonexistent_path_must_be_directory_error
    (fs : FS) (oracle : RawValidator) (renamer : Renamer) (sp : FsPath)
    (sn : String) (cb ce cv verbose : Bool)
    (hcoherent : ∀ q, fs.isDir q = true → fs.pathExists q = true)
    (hnex : fs.pathExists (fs.absolute sp) = false)
    (hflag : cb = true ∨ ce = true ∨ cv = true) :
    validate_session fs oracle sp sn "raw" cb ce cv =
      ([Effect.queryIsDir (fs.absolute sp)], Except.error mustBeDirMsg) ∧
    rename_videos fs renamer sp sn "raw" verbose =
      ([Effect.queryIsDir (fs.absolute sp)], Except.error mustBeDirMsg) := by
  have hdir : fs.isDir (fs.absolute sp) = false := by
    cases hval : fs.isDir (fs.absolute sp)
    · rfl
    · rw [hcoherent _ hval] at hnex; cases hnex
  have hguard : (!cb && !ce && !cv) = false := by
    rcases hflag with h | h | h <;> subst h <;> simp
  constructor <;> simp [validate_session, rename_videos, hguard, hdir]

theorem nonexistent_path_must_be_directory_error_witness :
    emptyFS.pathExists (emptyFS.absolute ["nope"]) = false ∧
    validate_session emptyFS okValidator ["nope"] "M1" "raw" true true true =
      ([Effect.queryIsDir ["nope"]], Except.error mustBeDirMsg) ∧
    rename_videos emptyFS okRenamer ["nope"] "M1" "raw" false =
      ([Effect.queryIsDir ["nope"]], Except.error mustBeDirMsg) := by
  have h := nonexistent_path_must_be_directory_error emptyFS okValidator okRenamer
    ["nope"] "M1" true true true false (fun q hq => by cases hq) rfl (Or.inl rfl)
  exact ⟨rfl, h.1, h.2⟩

theorem msgValidator_argsNonempty :
    ArgsNonempty cexFS msgValidator "M1" true true true
      [["root", "raw", "M1", "s1"], ["root", "raw", "M1", "s2"]] := by
  intro p hp hd e he
  fin_cases hp
  · have he2 := (show msgValidator ["root", "raw", "M1", "s1"] "M1" true true true =
      Except.error (PyExc.valueError ["bad session"]) from rfl).symm.trans he
    injection he2 with hinj
    subst hinj
    decide
  · have he2 := (show msgValidator ["root", "raw", "M1", "s2"] "M1" true true true =
      Except.ok () from rfl).symm.trans he
    exact Except.noConfusion he2

/-- Claim C3 (amended): provided every exception `validate_raw_session`
raises on a directory entry carries at least one argument, each session
directory is validated independently: the batch result is a normal return,
every directory entry is passed to the validator, a passing session has a
green report line recorded against its name, and a failing session has a red
report line recorded against its name together with the exception's first
argument — one failure never prevents the others from being validated and
reported.  (An exception with an empty argument tuple instead aborts the
loop with an `IndexError` while being recorded, which the counterexample
exhibits; the claim as stated, for arbitrary exceptions, is false.) -/
theorem batch_isolation
    (fs : FS) (oracle : RawValidator) (cfg : Config) (sn : String)
    (cb ce cv : Bool) (entries : List FsPath)
    (hflag : cb = true ∨ ce = true ∨ cv = true)
    (hiter : fs.iterdir (cfg.LOCAL_PATH ++ ["raw", sn]) = Except.ok entries)
    (h : ArgsNonempty fs oracle sn cb ce cv entries) :
    (validate_sessions fs oracle cfg sn "raw" cb ce cv).2 = Except.ok () ∧
    (∀ p ∈ entries, fs.isDir p = true →
      Effect.callValidateRawSession p sn cb ce cv ∈
        (validate_sessions fs oracle cfg sn "raw" cb ce cv).1) ∧
    (∀ p ∈ entries, fs.isDir p = true →
      (oracle p sn cb ce cv = Except.ok () →
        Effect.printLine (goodMsg p) ∈
          (validate_sessions fs oracle cfg sn "raw" cb ce cv).1) ∧
      (∀ e msg, oracle p sn cb ce cv = Except.error e →
        (PyExc.args e).head? = some msg →
        Effect.printLine (badMsg p msg) ∈
          (validate_sessions fs oracle cfg sn "raw" cb ce cv).1)) := by
  rw [validate_sessions_raw_unfold fs oracle cfg sn cb ce cv entries hflag hiter,
      sessionsLoop_eq_batchReport fs oracle sn cb ce cv entries h]
  refine ⟨rfl, ?_, ?_⟩
  · intro p hp hd
    exact List.mem_cons_of_mem _
      (batchReport_call_mem fs oracle sn cb ce cv entries p hp hd)
  · intro p hp hd
    constructor
    · intro hok
      have hm := batchReport_report_mem fs oracle sn cb ce cv entries p hp hd
      rw [hok] at hm
      have hm2 : Effect.printLine (goodMsg p) ∈
          batchReport fs oracle sn cb ce cv entries := hm
      exact List.mem_cons_of_mem _ hm2
    · intro e msg herr hhead
      have hm := batchReport_report_mem fs oracle sn cb ce cv entries p hp hd
      rw [herr] at hm
      have hm2 : Effect.printLine (badMsg p ((PyExc.args e).headD "")) ∈
          batchReport fs oracle sn cb ce cv entries := hm
      have hD : (PyExc.args e).headD "" = msg := by
        rw [List.headD_eq_head?_getD, hhead]
        rfl
      rw [hD] at hm2
      exact List.mem_cons_of_mem _ hm2

theorem batch_isolation_witness :
    (validate_sessions cexFS msgValidator cexCfg "M1" "raw" true true true).2 =
      Except.ok () ∧
    Effect.printLine (badMsg ["root", "raw", "M1", "s1"] "bad session") ∈
      (validate_sessions cexFS msgValidator cexCfg "M1" "raw" true true true).1 ∧
    Effect.printLine (goodMsg ["root", "raw", "M1", "s2"]) ∈
      (validate_sessions cexFS msgValidator cexCfg "M1" "raw" true true true).1 := by
  obtain ⟨h1, h2, h3⟩ := batch_isolation cexFS msgValidator cexCfg "M1" true true true
    [["root", "raw", "M1", "s1"], ["root", "raw", "M1", "s2"]]
    (Or.inl rfl) rfl msgValidator_argsNonempty
  refine ⟨h1, ?_, ?_⟩
  · exact (h3 ["root", "raw", "M1", "s1"] (by decide) rfl).2
      (PyExc.valueError ["bad session"]) "bad session" rfl rfl
  · exact (h3 ["root", "raw", "M1", "s2"] (by decide) rfl).1 rfl

/-- Counterexample to claim C3 as stated: subject `M1` has two session
directories; validating `s1` raises an exception whose `args` tuple is empty,
so recording it (`e.args[0]`) raises `IndexError`, the loop aborts, and the
remaining directory `s2` is never validated. -/
theorem batch_isolation_counterexample :
    (validate_sessions cexFS arglessValidator cexCfg "M1" "raw" true true true).2 =
      Except.error (PyExc.indexError ["tuple index out of range"]) ∧
    Effect.callValidateRawSession ["root", "raw", "M1", "s2"] "M1" true true true ∉
      (validate_sessions cexFS arglessValidator cexCfg "M1" "raw" true true true).1 :=
  ⟨rfl, by decide⟩

/-- Claim C4 (amended): provided listing the subject directory succeeds and
every exception raised by `validate_raw_session` on a directory entry carries
at least one argument, `validate_sessions` with level `"raw"` and a non-empty
selection returns normally: no exception propagates out of the batch call.
(Without those provisos an exception does propagate, as the counterexample
shows, so the claim as stated — for any directory state and any exception —
is false.) -/
theorem batch_no_exception_propagation
    (fs : FS) (oracle : RawValidator) (cfg : Config) (sn : String)
    (cb ce cv : Bool) (entries : List FsPath)
    (hflag : cb = true ∨ ce = true ∨ cv = true)
    (hiter : fs.iterdir (cfg.LOCAL_PATH ++ ["raw", sn]) = Except.ok entries)
    (h : ArgsNonempty fs oracle sn cb ce cv entries) :
    (validate_sessions fs oracle cfg sn "raw" cb ce cv).2 = Except.ok () := by
  rw [validate_sessions_raw_unfold fs oracle cfg sn cb ce cv entries hflag hiter,
      sessionsLoop_eq_batchReport fs oracle sn cb ce cv entries h]

theorem batch_no_exception_propagation_witness :
    (validate_sessions cexFS okValidator cexCfg "M1" "raw" true true true).2 =
      Except.ok () :=
  batch_no_exception_propagation cexFS okValidator cexCfg "M1" true true true
    [["root", "raw", "M1", "s1"], ["root", "raw", "M1", "s2"]] (Or.inl rfl) rfl
    (fun _ _ _ _ he => Except.noConfusion he)

/-- Counterexample to claim C4 as stated: (a) when the subject directory does
not exist, `iterdir` raises `FileNotFoundError`, which propagates out of the
batch call; (b) when validating a session raises an exception with an empty
`args` tuple, the handler's `e.args[0]` raises `IndexError`, which propagates
out of the batch call. -/
theorem batch_no_exception_propagation_counterexample :
    (validate_sessions emptyFS okValidator sampleCfg "M1" "raw" true true true).2 =
      Except.error (PyExc.fileNotFoundError ["No such file or directory"]) ∧
    (validate_sessions cexFS7 arglessValidator7 cexCfg7 "M2" "raw" true true true).2 =
      Except.error (PyExc.indexError ["tuple index out of range"]) :=
  ⟨rfl, rfl⟩

/-- Claim C7 (amended): provided every exception raised on a directory entry
carries at least one argument, `validate_sessions` considers exactly the
entries directly under `LOCAL_PATH/processing_level/subject_name`: every
directory entry is passed to `validate_raw_session`, every call performed is
on such a directory entry (so non-directory entries are never validated), and
every printed report line belongs to a directory entry (so non-directory
entries are never reported).  (Without the proviso a directory entry after an
argument-less failure is not validated, as the counterexample shows.) -/
theorem batch_considers_exactly_subject_entries
    (fs : FS) (oracle : RawValidator) (cfg : Config) (sn : String)
    (cb ce cv : Bool) (entries : List FsPath)
    (hflag : cb = true ∨ ce = true ∨ cv = true)
    (hiter : fs.iterdir (cfg.LOCAL_PATH ++ ["raw", sn]) = Except.ok entries)
    (h : ArgsNonempty fs oracle sn cb ce cv entries) :
    (∀ p ∈ entries, fs.isDir p = true →
      Effect.callValidateRawSession p sn cb ce cv ∈
        (validate_sessions fs oracle cfg sn "raw" cb ce cv).1) ∧
    (∀ p s b1 b2 b3,
      Effect.callValidateRawSession p s b1 b2 b3 ∈
        (validate_sessions fs oracle cfg sn "raw" cb ce cv).1 →
      p ∈ entries ∧ fs.isDir p = true ∧ s = sn ∧ b1 = cb ∧ b2 = ce ∧ b3 = cv) ∧
    (∀ s, Effect.printLine s ∈ (validate_sessions fs oracle cfg sn "raw" cb ce cv).1 →
      ∃ p, p ∈ entries ∧ fs.isDir p = true ∧
        (s = goodMsg p ∨ ∃ m, s = badMsg p m)) := by
  rw [validate_sessions_raw_unfold fs oracle cfg sn cb ce cv entries hflag hiter,
      sessionsLoop_eq_batchReport fs oracle sn cb ce cv entries h]
  refine ⟨?_, ?_, ?_⟩
  · intro p hp hd
    exact List.mem_cons_of_mem _
      (batchReport_call_mem fs oracle sn cb ce cv entries p hp hd)
  · intro p s b1 b2 b3 hmem
    rcases List.mem_cons.mp hmem with heq | hmem2
    · cases heq
    · exact batchReport_call_characterize fs oracle sn cb ce cv entries p s b1 b2 b3 hmem2
  · intro s hmem
    rcases List.mem_cons.mp hmem with heq | hmem2
    · cases heq
    · exact batchReport_printLine_characterize fs oracle sn cb ce cv entries s hmem2

theorem batch_considers_exactly_subject_entries_witness :
    Effect.callValidateRawSession ["root", "raw", "M1", "s1"] "M1" true true true ∈
      (validate_sessions cexFS msgValidator cexCfg "M1" "raw" true true true).1 ∧
    (["root", "raw", "M1", "s2"] ∈
        [["root", "raw", "M1", "s1"], ["root", "raw", "M1", "s2"]] ∧
      cexFS.isDir ["root", "raw", "M1", "s2"] = true ∧
      ("M1" : String) = "M1" ∧ true = true ∧ true = true ∧ true = true) := by
  obtain ⟨h1, h2, h3⟩ := batch_considers_exactly_subject_entries cexFS msgValidator
    cexCfg "M1" true true true
    [["root", "raw", "M1", "s1"], ["root", "raw", "M1", "s2"]]
    (Or.inl rfl) rfl msgValidator_argsNonempty
  refine ⟨h1 _ (by decide) rfl, ?_⟩
  exact h2 ["root", "raw", "M1", "s2"] "M1" true true true (by decide)

/-- Counterexample to claim C7 as stated: `t2` is a directory entry directly
under the subject path, yet it is never passed to `validate_raw_session`,
because the exception raised on the earlier entry `t1` carried no arguments
and aborted the loop. -/
theorem batch_considers_exactly_counterexample :
    Effect.callValidateRawSession ["home", "raw", "M2", "t2"] "M2" true true true ∉
      (validate_sessions cexFS7 arglessValidator7 cexCfg7 "M2" "raw" true true true).1 ∧
    cexFS7.iterdir (cexCfg7.LOCAL_PATH ++ ["raw", "M2"]) =
      Except.ok [["home", "raw", "M2", "t1"], ["home", "raw", "M2", "t2"]] ∧
    cexFS7.isDir ["home", "raw", "M2", "t2"] = true :=
  ⟨by decide, rfl, rfl⟩

theorem upload_model_cons_none (remote_root rel2 : FsPath) (c2 : Content)
    (rest : List (FsPath × Content)) (remote : RemoteState)
    (hdest : remote (remote_root ++ rel2) = none) :
    upload_raw_session_model remote_root ((rel2, c2) :: rest) remote =
      upload_raw_session_model remote_root rest
        (fun q => if q = remote_root ++ rel2 then some c2 else remote q) := by
  simp only [upload_raw_session_model, hdest]

theorem upload_model_cons_skip (remote_root rel2 : FsPath) (c2 : Content)
    (rest : List (FsPath × Content)) (remote : RemoteState)
    (hdest : remote (remote_root ++ rel2) = some c2) :
    upload_raw_session_model remote_root ((rel2, c2) :: rest) remote =
      upload_raw_session_model remote_root rest remote := by
  simp only [upload_raw_session_model, hdest, if_pos]

theorem upload_model_cons_conflict (remote_root rel2 : FsPath) (c2 : Content)
    (rest : List (FsPath × Content)) (remote : RemoteState) (rc2 : Content)
    (hdest : remote (remote_root ++ rel2) = some rc2) (hne : rc2 ≠ c2) :
    upload_raw_session_model remote_root ((rel2, c2) :: rest) remote =
      (remote, some ⟨remote_root ++ rel2, rc2, c2⟩) := by
  simp only [upload_raw_session_model, hdest, if_neg hne]

/-- Claim C9 (spec-modelled, `data_transfer.py` is not under `src/`): if some
local file's destination under the remote root already holds content
differing from the local source, the upload surfaces a conflict error
(`isSome`), and in the resulting remote state that pre-existing file is
byte-for-byte unchanged — it is never overwritten. -/
theorem upload_conflict_preserves_remote
    (remote_root : FsPath) (files : List (FsPath × Content)) (remote : RemoteState)
    (rel : FsPath) (c rc : Content)
    (hmem : (rel, c) ∈ files)
    (hremote : remote (remote_root ++ rel) = some rc)
    (hne : rc ≠ c) :
    (upload_raw_session_model remote_root files remote).2.isSome = true ∧
    (upload_raw_session_model remote_root files remote).1 (remote_root ++ rel) =
      some rc := by
  induction files generalizing remote with
  | nil => cases hmem
  | cons fc rest ih =>
    obtain ⟨rel2, c2⟩ := fc
    rcases List.mem_cons.mp hmem with heq | hmem2
    · injection heq with h1 h2
      subst h1
      subst h2
      rw [upload_model_cons_conflict remote_root rel c rest remote rc hremote hne]
      exact ⟨rfl, hremote⟩
    · cases hdest : remote (remote_root ++ rel2) with
      | none =>
        have hne2 : remote_root ++ rel ≠ remote_root ++ rel2 := by
          intro hcontra
          rw [hcontra, hdest] at hremote
          exact Option.noConfusion hremote
        rw [upload_model_cons_none remote_root rel2 c2 rest remote hdest]
        refine ih _ hmem2 ?_
        show (if remote_root ++ rel = remote_root ++ rel2 then some c2
          else remote (remote_root ++ rel)) = some rc
        rw [if_neg hne2]
        exact hremote
      | some rc2 =>
        by_cases hc : rc2 = c2
        · subst hc
          rw [upload_model_cons_skip remote_root rel2 rc2 rest remote hdest]
          exact ih _ hmem2 hremote
        · rw [upload_model_cons_conflict remote_root rel2 c2 rest remote rc2 hdest hc]
          exact ⟨rfl, hremote⟩

theorem upload_conflict_preserves_remote_witness :
    ((["b"], ([2] : Content)) ∈ [(["a"], ([1] : Content)), (["b"], [2])] ∧
      cexRemote (["r"] ++ ["b"]) = some [9] ∧ ([9] : Content) ≠ [2]) ∧
    (upload_raw_session_model ["r"] [(["a"], [1]), (["b"], [2])] cexRemote).2.isSome =
      true ∧
    (upload_raw_session_model ["r"] [(["a"], [1]), (["b"], [2])] cexRemote).1
      (["r"] ++ ["b"]) = some [9] := by
  have h := upload_conflict_preserves_remote ["r"] [(["a"], [1]), (["b"], [2])]
    cexRemote ["b"] [2] [9] (by decide) rfl (by decide)
  exact ⟨⟨by decide, rfl, by decide⟩, h.1, h.2⟩
